import Mathlib

/-!
Shallow embedding of the two client scripts of the fruit-e-commerce-website
repository: the weather cache/fetch widget of the tourism enhancement script
(src/unnamed/part_000) and the shopping-cart widget (src/script.js).

Numbers that JavaScript holds as IEEE doubles are modelled as rationals (ℚ)
where fractional arithmetic occurs and as naturals/integers where the code
only compares or subtracts timestamps and codes. Millisecond clock readings
(`Date.now()`) are modelled as `Nat`.
-/

namespace Kurdistan

/-- A record of `APP.cities` (src/unnamed/part_000, around line 318). -/
structure City where
  id : String
  name : String
  country : String
  lat : ℚ
  lon : ℚ
deriving Repr, DecidableEq

/-- The fixed city registry `APP.cities`. -/
def APP_cities : List City :=
  [ ⟨"erbil", "Erbil (Hewlêr)", "Iraq", 36.1911, 44.0092⟩,
    ⟨"sulaymaniyah", "Sulaymaniyah (Silêmanî)", "Iraq", 35.5653, 45.4329⟩,
    ⟨"duhok", "Duhok (Dihok)", "Iraq", 36.8667, 42.95⟩,
    ⟨"halabja", "Halabja", "Iraq", 35.1815, 45.9866⟩,
    ⟨"zakho", "Zakho", "Iraq", 37.1431, 42.6861⟩,
    ⟨"kirkuk", "Kirkuk", "Iraq", 35.4681, 44.3922⟩ ]

/-- `APP.weather.cacheTtlMs = 10 * 60 * 1000` (10 minutes). -/
def cacheTtlMs : Nat := 10 * 60 * 1000

/-- The `hourly` record of an Open-Meteo response: parallel time-indexed
arrays. Fields mirror `APP.weather.params.hourly` plus the `time` array. -/
structure HourlyData where
  time : List String
  temperature_2m : List ℚ
  weather_code : List Int
  wind_speed_10m : List ℚ
  relative_humidity_2m : List ℚ
deriving Repr, DecidableEq

/-- The `current` record of an Open-Meteo response. Every field is optional:
the consumer checks `typeof === "number"` before using each one. -/
structure CurrentData where
  time : Option String
  temperature_2m : Option ℚ
  relative_humidity_2m : Option ℚ
  apparent_temperature : Option ℚ
  weather_code : Option Int
  wind_speed_10m : Option ℚ
deriving Repr, DecidableEq

/-- The JSON payload returned by the upstream forecast provider and stored in
the cache (`json` in `fetchWeather`). -/
structure WeatherData where
  current : Option CurrentData
  hourly : Option HourlyData
deriving Repr, DecidableEq

/-- An icon/label pair as returned by `codeToIcon`. -/
structure IconLabel where
  icon : String
  label : String
deriving Repr, DecidableEq

/-- `codeToIcon` (src/unnamed/part_000 lines 1252-1283) restricted to finite
numeric inputs (`Number(code)` finite); the non-finite branch returns the
"Unknown" pair and is modelled by `codeToIconRaw`. -/
def codeToIcon (c : Int) : IconLabel :=
  if c = 0 then ⟨"ri-sun-line", "Clear sky"⟩
  else if c = 1 then ⟨"ri-sun-cloudy-line", "Mainly clear"⟩
  else if c = 2 then ⟨"ri-cloudy-2-line", "Partly cloudy"⟩
  else if c = 3 then ⟨"ri-cloudy-line", "Overcast"⟩
  else if c = 45 ∨ c = 48 then ⟨"ri-mist-line", "Fog"⟩
  else if c = 51 ∨ c = 53 ∨ c = 55 then ⟨"ri-drizzle-line", "Drizzle"⟩
  else if c = 56 ∨ c = 57 then ⟨"ri-snowy-line", "Freezing drizzle"⟩
  else if c = 61 ∨ c = 63 ∨ c = 65 then ⟨"ri-rainy-line", "Rain"⟩
  else if c = 66 ∨ c = 67 then ⟨"ri-snowy-line", "Freezing rain"⟩
  else if c = 71 ∨ c = 73 ∨ c = 75 then ⟨"ri-snowy-line", "Snow"⟩
  else if c = 77 then ⟨"ri-snowy-line", "Snow grains"⟩
  else if c = 80 ∨ c = 81 ∨ c = 82 then ⟨"ri-showers-line", "Showers"⟩
  else if c = 95 then ⟨"ri-thunderstorms-line", "Thunderstorm"⟩
  else if c = 96 ∨ c = 99 then ⟨"ri-thunderstorms-line", "Thunderstorm + hail"⟩
  else ⟨"ri-cloud-windy-line", "Variable"⟩

/-- `codeToIcon` on an arbitrary input: `none` models a value whose
`Number(...)` conversion is not finite (`NaN`, `Infinity`). -/
def codeToIconRaw : Option Int → IconLabel
  | none => ⟨"ri-question-line", "Unknown"⟩
  | some c => codeToIcon c

/-- The integer codes with a dedicated branch in `codeToIcon`. -/
def recognizedCodes : List Int :=
  [0, 1, 2, 3, 45, 48, 51, 53, 55, 56, 57, 61, 63, 65, 66, 67,
   71, 73, 75, 77, 80, 81, 82, 95, 96, 99]

/-- `toF` (line 1285): `(c * 9) / 5 + 32`, with the source's parenthesisation. -/
def toF (c : ℚ) : ℚ := (c * 9) / 5 + 32

/-- The km/h→mph factor used by `renderWeather` (`windKmh * 0.621371`). -/
def mphFactor : ℚ := 0.621371

/-- `buildKey` (line 1287). -/
def buildKey (cityId units : String) : String := cityId ++ "_" ++ units

/-- `getCity` (line 1289): `APP.cities.find((c) => c.id === id) || APP.cities[0]`.
`none` would mean both the lookup and `APP.cities[0]` are undefined, which
cannot happen with the fixed nonempty registry. -/
def getCity (id : String) : Option City :=
  (APP_cities.find? (fun c => c.id == id)) <|> APP_cities.head?

/-- A value of `STATE.weather.cache[key]`: `{ ts, data }` as written by
`cacheSet`. `data` is optional because the cache mapping is reloaded from
storage JSON at startup, where the field may be absent or null
(`entry.data || null` in `fromCache`). -/
structure CacheEntry where
  ts : Nat
  data : Option WeatherData
deriving Repr, DecidableEq

/-- `STATE.weather.cache`: a mapping from cache keys to entries, modelled as
an association list with unique keys (JS object properties). -/
abbrev Cache := List (String × CacheEntry)

/-- Property lookup `STATE.weather.cache[key]`. -/
def cacheGet (c : Cache) (k : String) : Option CacheEntry :=
  (List.find? (fun p => p.1 == k) c).map Prod.snd

/-- Property assignment `STATE.weather.cache[key] = v`: overwrite the entry
when the key is present, append it otherwise. -/
def cachePut (c : Cache) (k : String) (v : CacheEntry) : Cache :=
  if List.any c (fun p => p.1 == k) then
    List.map (fun p => if p.1 == k then (k, v) else p) c
  else c ++ [(k, v)]

/-- `fromCache` (lines 1291-1297): returns the cached payload for `key` when
an entry exists, its `ts` is truthy, it is within the TTL, and its `data` is
present; `null` (here `none`) otherwise. JS computes `nowMs() - entry.ts` as
a possibly negative number; a future timestamp never exceeds the TTL there,
and `Nat` truncated subtraction gives the same comparison outcome. -/
def fromCache (cache : Cache) (key : String) (now : Nat) : Option WeatherData :=
  match cacheGet cache key with
  | none => none
  | some entry =>
    if entry.ts = 0 ∨ now - entry.ts > cacheTtlMs then none
    else entry.data

/-- The serialized weather-cache slot of `localStorage`
(`APP.storageKeys.weatherCache`), modelled post-deserialization: `none` when
the key was never written. -/
abbrev Storage := Option Cache

/-- `cacheSet` (lines 1299-1303) combined with `persistWeatherCache`
(lines 449-455): store `{ ts: nowMs(), data }` under the key, then persist the
whole mapping best-effort — `persistOk = false` models a `localStorage.setItem`
throw (quota), which the `try/catch` swallows, leaving storage unchanged. -/
def cacheSet (cache : Cache) (storage : Storage) (key : String) (now : Nat)
    (d : WeatherData) (persistOk : Bool) : Cache × Storage :=
  let c2 := cachePut cache key ⟨now, some d⟩
  (c2, if persistOk then some c2 else storage)

/-- Where a fetch result came from: the `source` field of `fetchWeather`'s
return value. -/
inductive Source
  | cache
  | live
deriving Repr, DecidableEq

/-- The outcome of the single `fetch(url)` round-trip inside `fetchWeather`,
supplied as an oracle: a JSON body on success, a non-ok HTTP status, or a
transport rejection with a message. -/
inductive NetOutcome
  | ok (json : WeatherData)
  | httpError (status : Nat)
  | transportError (msg : String)
deriving Repr, DecidableEq

instance {ε α : Type} [DecidableEq ε] [DecidableEq α] : DecidableEq (Except ε α) :=
  fun a b =>
    match a, b with
    | .ok x, .ok y =>
        if h : x = y then .isTrue (by rw [h]) else .isFalse (by simp [h])
    | .error x, .error y =>
        if h : x = y then .isTrue (by rw [h]) else .isFalse (by simp [h])
    | .ok _, .error _ => .isFalse (by simp)
    | .error _, .ok _ => .isFalse (by simp)

/-- Everything observable about one run of `fetchWeather`: its
returned/thrown value, the cache and storage afterwards, and whether the
network round-trip was performed. -/
structure FetchOutcome where
  result : Except String (WeatherData × Source)
  cache : Cache
  storage : Storage
  netCalled : Bool
deriving Repr, DecidableEq

/-- `fetchWeather` (lines 1417-1445). `cityId`/`units` are
`STATE.weather.cityId`/`STATE.weather.units` at call time, `now` is `nowMs()`,
`net` the network oracle, `persistOk` the persistence oracle. -/
def fetchWeather (cityId units : String) (cache : Cache) (storage : Storage)
    (now : Nat) (force : Bool) (net : NetOutcome) (persistOk : Bool) :
    FetchOutcome :=
  match getCity cityId with
  | none => ⟨.error "City not found", cache, storage, false⟩
  | some _city =>
    let key := buildKey cityId units
    match (if force then none else fromCache cache key now) with
    | some cached => ⟨.ok (cached, .cache), cache, storage, false⟩
    | none =>
      match net with
      | .httpError status =>
          ⟨.error ("Weather request failed (" ++ toString status ++ ")"),
           cache, storage, true⟩
      | .transportError msg => ⟨.error msg, cache, storage, true⟩
      | .ok json =>
          let cs := cacheSet cache storage key now json persistOk
          ⟨.ok (json, .live), cs.1, cs.2, true⟩

/-- The widget state fields `renderWeatherFromCacheOrFetch` reads and writes. -/
structure WeatherState where
  cache : Cache
  isLoading : Bool
  lastError : Option String
deriving Repr, DecidableEq

/-- The observable effect of one invocation of the render flow. `rendered`
records whether the flow got past the `isLoading` guard (and so touched the
DOM at all). -/
structure RenderOutcome where
  state : WeatherState
  storage : Storage
  netCalled : Bool
  rendered : Bool
deriving Repr, DecidableEq

/-- `renderWeatherFromCacheOrFetch` (lines 1447-1487): returns immediately
when `isLoading` is set; otherwise runs `fetchWeather`, records `lastError`
on failure, and clears `isLoading` in the `finally` block. The transient
`isLoading = true` window during the await is internal to the single
invocation and not an observable post-state. -/
def renderWeatherFromCacheOrFetch (st : WeatherState) (storage : Storage)
    (cityId units : String) (now : Nat) (force : Bool) (net : NetOutcome)
    (persistOk : Bool) : RenderOutcome :=
  if st.isLoading then ⟨st, storage, false, false⟩
  else
    let r := fetchWeather cityId units st.cache storage now force net persistOk
    match r.result with
    | .ok _ => ⟨⟨r.cache, false, none⟩, r.storage, r.netCalled, true⟩
    | .error msg => ⟨⟨r.cache, false, some msg⟩, r.storage, r.netCalled, true⟩

/-- One rendered forecast card in `renderWeather`'s forecast section
(lines 1368-1414). `wind`/`humidity` are `none` when the corresponding array
read `winds[i]`/`hums[i]` is out of range (JS yields `undefined`, rendered
as NaN, not an exception). -/
structure ForecastRow where
  time : String
  temp : ℚ
  icon : String
  label : String
  wind : Option ℚ
  humidity : Option ℚ
deriving Repr, DecidableEq

/-- The hourly arrays `renderWeather` extracts from the payload:
`data && data.hourly ? data.hourly : null`, each array defaulting to `[]`. -/
def hourlyArrays (d : WeatherData) : HourlyData :=
  match d.hourly with
  | some h => h
  | none => ⟨[], [], [], [], []⟩

/-- `const count = Math.min(8, times.length, tempsC.length, codes.length)` in
`renderWeather`: the number of forecast rows built. The wind and humidity
array lengths do not participate. -/
def forecastCount (h : HourlyData) : Nat :=
  min 8 (min h.time.length (min h.temperature_2m.length h.weather_code.length))

/-- The forecast row loop of `renderWeather` (lines 1374-1390): for each
`i < count`, read `times[i]`, `tempsC[i]`, `codes[i]` (all in range by the
`count` bound), and `winds[i]`, `hums[i]` (possibly out of range). Imperial
units convert the temperature with `toF` and the wind with `* 0.621371`. -/
def forecastRows (units : String) (h : HourlyData) : List ForecastRow :=
  (List.range (forecastCount h)).map (fun i =>
    let tempC := h.temperature_2m.getD i 0
    let code := h.weather_code.getD i 0
    let il := codeToIcon code
    { time := h.time.getD i ""
      temp := if units == "f" then toF tempC else tempC
      icon := il.icon
      label := il.label
      wind := (h.wind_speed_10m.get? i).map
        (fun w => if units == "f" then w * mphFactor else w)
      humidity := h.relative_humidity_2m.get? i })

/-- A minimal concrete payload used to instantiate general theorems. -/
def samplePayload : WeatherData := ⟨none, none⟩

/-- An hourly response with 24 `time`/`temperature_2m` entries but only 20
`weather_code` entries (and 24 wind/humidity entries). -/
def hourly24_20 : HourlyData :=
  ⟨List.replicate 24 "2025-01-01T00:00", List.replicate 24 20,
   List.replicate 20 1, List.replicate 24 5, List.replicate 24 50⟩

/-- A cache holding an entry whose `ts` field is 0 (as a JSON-restored cache
may contain): `!entry.ts` is true in `fromCache`. -/
def ts0Cache : Cache := [("erbil_c", ⟨0, some samplePayload⟩)]

/-- A cache holding an entry captured at 1 ms, stale at `now = 700000`. -/
def staleCache : Cache := [("erbil_c", ⟨1, some samplePayload⟩)]

/-- An hourly response whose wind array (1 entry) is shorter than the three
row-count arrays (3 entries each) and whose humidity array is empty. -/
def windShortHourly : HourlyData :=
  ⟨["a", "b", "c"], [0, 0, 0], [0, 0, 0], [1], []⟩

end Kurdistan

namespace FruitShop

/-- A record of the `products` array (src/script.js lines 1-45). -/
structure Product where
  id : Int
  name : String
  price : ℚ
deriving Repr, DecidableEq

/-- The fixed product catalogue of src/script.js. -/
def products : List Product :=
  [ ⟨1, "Honeycrisp Apples", 4.99⟩,
    ⟨2, "Ataulfo Mangoes", 6.5⟩,
    ⟨3, "Blueberry Pack", 5.25⟩,
    ⟨4, "Valencia Oranges", 3.75⟩,
    ⟨5, "Seedless Grapes", 4.2⟩,
    ⟨6, "Dragon Fruit", 7.9⟩ ]

/-- A cart line: `{ ...product, qty }` as pushed by the click handler. -/
structure CartItem where
  id : Int
  name : String
  price : ℚ
  qty : Nat
deriving Repr, DecidableEq

/-- `existingItem.qty += 1` applied to the item `cart.find` returns: bump the
first entry whose id matches, leave everything else in place. -/
def bumpFirst : List CartItem → Int → List CartItem
  | [], _ => []
  | it :: rest, id =>
      if it.id == id then { it with qty := it.qty + 1 } :: rest
      else it :: bumpFirst rest id

/-- The `productGrid` click handler (src/script.js lines 91-113) for a click
carrying numeric id `id` (`Number(target.dataset.id)`; a non-numeric dataset
id gives NaN, which `===`-matches no product and also falls in the
unchanged branch). -/
def addToCart (cart : List CartItem) (id : Int) : List CartItem :=
  match products.find? (fun p => p.id == id) with
  | none => cart
  | some product =>
      match cart.find? (fun item => item.id == id) with
      | some _ => bumpFirst cart id
      | none => cart ++ [⟨product.id, product.name, product.price, 1⟩]

/-- `renderCart`'s badge count:
`cart.reduce((sum, item) => sum + item.qty, 0)` (src/script.js line 88). -/
def cartCount (cart : List CartItem) : Nat :=
  cart.foldl (fun sum item => sum + item.qty) 0

end FruitShop

namespace Kurdistan

lemma getCity_exists (id : String) : ∃ c, getCity id = some c ∧ c ∈ APP_cities := by
  unfold getCity
  cases h : APP_cities.find? (fun c => c.id == id) with
  | none =>
    refine ⟨_, rfl, ?_⟩
    unfold APP_cities
    exact List.mem_cons_self _ _
  | some c => exact ⟨c, rfl, List.mem_of_find?_eq_some h⟩

lemma cacheGet_map_overwrite (c : Cache) (k : String) (v : CacheEntry) :
    cacheGet (List.map (fun p => if p.1 == k then (k, v) else p) c) k
      = if List.any c (fun p => p.1 == k) then some v else none := by
  induction c with
  | nil => rfl
  | cons q rest ih =>
    by_cases hq : q.1 == k
    · simp [cacheGet, List.find?, hq]
    · simp only [List.map_cons, List.any_cons, hq, Bool.false_or]
      simpa [cacheGet, List.find?, hq] using ih

lemma find?_key_none_of_not_any (c : Cache) (k : String)
    (h : List.any c (fun p => p.1 == k) = false) :
    List.find? (fun p => p.1 == k) c = none := by
  induction c with
  | nil => rfl
  | cons q rest ih =>
    simp only [List.any_cons, Bool.or_eq_false_iff] at h
    simpa [List.find?, h.1] using ih h.2

lemma cacheGet_cachePut_self (c : Cache) (k : String) (v : CacheEntry) :
    cacheGet (cachePut c k v) k = some v := by
  unfold cachePut
  by_cases h : List.any c (fun p => p.1 == k)
  · rw [if_pos h, cacheGet_map_overwrite, if_pos h]
  · rw [if_neg h]
    have h' : List.any c (fun p => p.1 == k) = false := by
      cases hb : List.any c (fun p => p.1 == k) with
      | false => rfl
      | true => exact absurd hb h
    unfold cacheGet
    rw [List.find?_append, find?_key_none_of_not_any c k h']
    simp [List.find?]


lemma fetchWeather_cacheHit (cityId units : String) (cache : Cache)
    (storage : Storage) (now : Nat) (net : NetOutcome) (persistOk : Bool)
    (d : WeatherData) (hhit : fromCache cache (buildKey cityId units) now = some d) :
    fetchWeather cityId units cache storage now false net persistOk
      = ⟨.ok (d, .cache), cache, storage, false⟩ := by
  obtain ⟨c, hc, _⟩ := getCity_exists cityId
  unfold fetchWeather
  rw [hc]
  simp [hhit]

lemma fetchWeather_netOk (cityId units : String) (cache : Cache)
    (storage : Storage) (now : Nat) (force : Bool) (p : WeatherData)
    (persistOk : Bool)
    (hmiss : (if force then none else fromCache cache (buildKey cityId units) now)
      = none) :
    fetchWeather cityId units cache storage now force (.ok p) persistOk
      = ⟨.ok (p, .live),
         cachePut cache (buildKey cityId units) ⟨now, some p⟩,
         if persistOk then
           some (cachePut cache (buildKey cityId units) ⟨now, some p⟩)
         else storage,
         true⟩ := by
  obtain ⟨c, hc, _⟩ := getCity_exists cityId
  unfold fetchWeather
  rw [hc]
  dsimp only
  rw [hmiss]
  rfl

lemma fetchWeather_httpErr (cityId units : String) (cache : Cache)
    (storage : Storage) (now : Nat) (force : Bool) (status : Nat)
    (persistOk : Bool)
    (hmiss : (if force then none else fromCache cache (buildKey cityId units) now)
      = none) :
    fetchWeather cityId units cache storage now force (.httpError status) persistOk
      = ⟨.error ("Weather request failed (" ++ toString status ++ ")"),
         cache, storage, true⟩ := by
  obtain ⟨c, hc, _⟩ := getCity_exists cityId
  unfold fetchWeather
  rw [hc]
  dsimp only
  rw [hmiss]

lemma fetchWeather_transportErr (cityId units : String) (cache : Cache)
    (storage : Storage) (now : Nat) (force : Bool) (msg : String)
    (persistOk : Bool)
    (hmiss : (if force then none else fromCache cache (buildKey cityId units) now)
      = none) :
    fetchWeather cityId units cache storage now force (.transportError msg) persistOk
      = ⟨.error msg, cache, storage, true⟩ := by
  obtain ⟨c, hc, _⟩ := getCity_exists cityId
  unfold fetchWeather
  rw [hc]
  dsimp only
  rw [hmiss]

lemma fetchWeather_netCalled_eq (cityId units : String) (cache : Cache)
    (storage : Storage) (now : Nat) (force : Bool) (net : NetOutcome)
    (persistOk : Bool) :
    (fetchWeather cityId units cache storage now force net persistOk).netCalled
      = (force || (fromCache cache (buildKey cityId units) now).isNone) := by
  obtain ⟨c, hc, _⟩ := getCity_exists cityId
  unfold fetchWeather
  rw [hc]
  cases force with
  | true => cases net <;> simp
  | false =>
    cases hfc : fromCache cache (buildKey cityId units) now with
    | some d => simp [hfc]
    | none => cases net <;> simp [hfc]

lemma fromCache_cachePut_fresh (cache : Cache) (key : String)
    (now₀ now₁ : Nat) (p : WeatherData) (h0 : now₀ ≠ 0)
    (hwin : now₁ - now₀ ≤ cacheTtlMs) :
    fromCache (cachePut cache key ⟨now₀, some p⟩) key now₁ = some p := by
  unfold fromCache
  rw [cacheGet_cachePut_self]
  dsimp only
  rw [if_neg]
  push_neg
  exact ⟨h0, by omega⟩

lemma fromCache_of_cacheGet (cache : Cache) (key : String) (now : Nat)
    (e : CacheEntry) (h : cacheGet cache key = some e) :
    fromCache cache key now
      = if e.ts ≠ 0 ∧ now - e.ts ≤ cacheTtlMs then e.data else none := by
  unfold fromCache
  rw [h]
  dsimp only
  split_ifs
  all_goals first | rfl | (exfalso; omega)

end Kurdistan

namespace Kurdistan

lemma forecastRows_length_eq (units : String) (h : HourlyData) :
    (forecastRows units h).length = forecastCount h := by
  unfold forecastRows
  rw [List.length_map, List.length_range]

/-- Claim C9: the Celsius-to-Fahrenheit helper is a pure function satisfying
`toF c = c * 9/5 + 32` for every input `c`; in particular `toF 0 = 32` and
`toF 100 = 212`. -/
theorem C9_toF_formula :
    (∀ c : ℚ, toF c = c * (9 / 5) + 32) ∧ toF 0 = 32 ∧ toF 100 = 212 := by
  refine ⟨fun c => ?_, by norm_num [toF], by norm_num [toF]⟩
  unfold toF
  ring

/-- Claim C8: the weather-code mapping is total and never fails: code 0 maps
to the clear-sky label, code 95 to the thunderstorm label, and every integer
code outside the recognized table yields the generic "Variable" label. -/
theorem C8_codeToIcon_total :
    (codeToIcon 0).label = "Clear sky" ∧
    (codeToIcon 95).label = "Thunderstorm" ∧
    ∀ c : Int, c ∉ recognizedCodes → (codeToIcon c).label = "Variable" := by
  refine ⟨by decide, by decide, fun c hc => ?_⟩
  have hm : ¬(c = 0 ∨ c = 1 ∨ c = 2 ∨ c = 3 ∨ c = 45 ∨ c = 48 ∨ c = 51 ∨
      c = 53 ∨ c = 55 ∨ c = 56 ∨ c = 57 ∨ c = 61 ∨ c = 63 ∨ c = 65 ∨ c = 66 ∨
      c = 67 ∨ c = 71 ∨ c = 73 ∨ c = 75 ∨ c = 77 ∨ c = 80 ∨ c = 81 ∨ c = 82 ∨
      c = 95 ∨ c = 96 ∨ c = 99) := by
    simpa [recognizedCodes] using hc
  push_neg at hm
  unfold codeToIcon
  obtain ⟨h0, h1, h2, h3, h45, h48, h51, h53, h55, h56, h57, h61, h63, h65,
    h66, h67, h71, h73, h75, h77, h80, h81, h82, h95, h96, h99⟩ := hm
  rw [if_neg h0, if_neg h1, if_neg h2, if_neg h3,
    if_neg (by tauto : ¬(c = 45 ∨ c = 48)),
    if_neg (by tauto : ¬(c = 51 ∨ c = 53 ∨ c = 55)),
    if_neg (by tauto : ¬(c = 56 ∨ c = 57)),
    if_neg (by tauto : ¬(c = 61 ∨ c = 63 ∨ c = 65)),
    if_neg (by tauto : ¬(c = 66 ∨ c = 67)),
    if_neg (by tauto : ¬(c = 71 ∨ c = 73 ∨ c = 75)),
    if_neg h77,
    if_neg (by tauto : ¬(c = 80 ∨ c = 81 ∨ c = 82)),
    if_neg h95,
    if_neg (by tauto : ¬(c = 96 ∨ c = 99))]

/-- Witness for C8 at the unrecognized code 12345. -/
theorem C8_codeToIcon_total_witness :
    (12345 : Int) ∉ recognizedCodes ∧ (codeToIcon 12345).label = "Variable" :=
  ⟨by decide, C8_codeToIcon_total.2.2 12345 (by decide)⟩

/-- Claim C7: location resolution returns a registered location for every id
string — the first registered location when the id is unresolved — and a
fetch whose network call succeeds never fails, whatever the id. -/
theorem C7_getCity_fallback :
    (∀ id, ∃ c, getCity id = some c ∧ c ∈ APP_cities) ∧
    (∀ id, APP_cities.find? (fun c => c.id == id) = none →
      getCity id = APP_cities.head?) ∧
    (∀ cityId units cache storage now force json persistOk,
      ∃ r, (fetchWeather cityId units cache storage now force
        (NetOutcome.ok json) persistOk).result = .ok r) := by
  refine ⟨getCity_exists, fun id h => ?_, ?_⟩
  · unfold getCity
    rw [h]
    rfl
  · intro cityId units cache storage now force json persistOk
    cases hm : (if force then none
        else fromCache cache (buildKey cityId units) now) with
    | none =>
      exact ⟨(json, .live),
        by rw [fetchWeather_netOk _ _ _ _ _ _ _ _ hm]⟩
    | some d =>
      cases force with
      | true => simp at hm
      | false =>
        have hm' : fromCache cache (buildKey cityId units) now = some d := by
          simpa using hm
        exact ⟨(d, .cache),
          by rw [fetchWeather_cacheHit _ _ _ _ _ _ _ _ hm']⟩

/-- Witness for C7 at the unregistered id "atlantis". -/
theorem C7_getCity_fallback_witness :
    APP_cities.find? (fun c => c.id == "atlantis") = none ∧
    getCity "atlantis" = APP_cities.head? :=
  ⟨by decide, C7_getCity_fallback.2.1 "atlantis" (by decide)⟩

/-- Claim C3 counterexample: for an hourly response with 24 `temperature_2m`
entries and 20 `weather_code` entries, the forecast renderer emits 8 rows
(the `Math.min(8, ...)` cap), not the 20 rows the claim predicts. -/
theorem C3_counterexample :
    hourly24_20.temperature_2m.length = 24 ∧
    hourly24_20.weather_code.length = 20 ∧
    (forecastRows "c" hourly24_20).length = 8 ∧
    (forecastRows "c" hourly24_20).length ≠ 20 := by
  have hlen : (forecastRows "c" hourly24_20).length = 8 := by
    rw [forecastRows_length_eq]
    decide
  refine ⟨by decide, by decide, hlen, by rw [hlen]; omega⟩

/-- Claim C3 (amended): the renderer emits exactly
`min 8 (min |time| (min |temperature_2m| |weather_code|))` rows — capped at 8
and ignoring the wind/humidity array lengths — and a row whose wind index is
beyond the wind array gets no wind value rather than failing. -/
theorem C3_amended :
    (∀ units h, (forecastRows units h).length
      = min 8 (min h.time.length
          (min h.temperature_2m.length h.weather_code.length))) ∧
    (∀ units h i row, (forecastRows units h).get? i = some row →
      h.wind_speed_10m.length ≤ i → row.wind = none) := by
  constructor
  · intro units h
    rw [forecastRows_length_eq]
    rfl
  · intro units h i row hrow hlen
    unfold forecastRows at hrow
    rw [List.get?_map] at hrow
    cases hr : (List.range (forecastCount h)).get? i with
    | none => rw [hr] at hrow; simp at hrow
    | some j =>
      rw [hr] at hrow
      have hi : i < forecastCount h := by
        have h2 := List.get?_eq_some.mp hr
        simpa using h2.1
      rw [List.get?_range hi] at hr
      obtain rfl : i = j := Option.some.inj hr
      simp only [Option.map_some'] at hrow
      obtain rfl : _ = row := Option.some.inj hrow
      have hwind : h.wind_speed_10m.get? i = none :=
        List.get?_eq_none.mpr hlen
      simp [hwind, hlen]

end Kurdistan

namespace Kurdistan

/-- Witness for the amended C3 at a concrete response whose wind array (one
entry) is shorter than the three rendered rows and whose humidity array is
empty: the third row carries no wind value. -/
theorem C3_amended_witness :
    (forecastRows "c" windShortHourly).get? 2
        = some ⟨"c", 0, "ri-sun-line", "Clear sky", none, none⟩ ∧
    windShortHourly.wind_speed_10m.length ≤ 2 ∧
    (ForecastRow.wind ⟨"c", 0, "ri-sun-line", "Clear sky", none, none⟩) = none :=
  ⟨by decide, by decide,
   C3_amended.2 "c" windShortHourly 2 _ (by decide) (by decide)⟩

/-- Claim C1: `fetchWeather` performs a network call iff `forceRefresh` is
true or no valid cache entry exists for the key; with a valid entry and no
force it returns that entry's payload with source "cache" and touches
nothing; and two non-forced fetches within one TTL window — the first
starting from a cache miss and succeeding over the network at a positive
clock value — perform exactly one network call, the second answering from
the cache with the identical payload. -/
theorem C1_fetch_cache_flow :
    (∀ cityId units cache storage now force net persistOk,
      (fetchWeather cityId units cache storage now force net persistOk).netCalled
        = (force || (fromCache cache (buildKey cityId units) now).isNone)) ∧
    (∀ cityId units cache storage now net persistOk d,
      fromCache cache (buildKey cityId units) now = some d →
      fetchWeather cityId units cache storage now false net persistOk
        = ⟨.ok (d, .cache), cache, storage, false⟩) ∧
    (∀ cityId units cache storage now₀ now₁ p pOk₀ net₁ pOk₁,
      0 < now₀ →
      fromCache cache (buildKey cityId units) now₀ = none →
      now₁ - now₀ ≤ cacheTtlMs →
      (fetchWeather cityId units cache storage now₀ false
          (NetOutcome.ok p) pOk₀).netCalled = true ∧
      (fetchWeather cityId units cache storage now₀ false
          (NetOutcome.ok p) pOk₀).result = .ok (p, .live) ∧
      (let r₁ := fetchWeather cityId units cache storage now₀ false
          (NetOutcome.ok p) pOk₀
       fetchWeather cityId units r₁.cache r₁.storage now₁ false net₁ pOk₁
         = ⟨.ok (p, .cache), r₁.cache, r₁.storage, false⟩)) := by
  refine ⟨fetchWeather_netCalled_eq, fetchWeather_cacheHit, ?_⟩
  intro cityId units cache storage now₀ now₁ p pOk₀ net₁ pOk₁ h0 hmiss hwin
  have hmiss' : (if false then none
      else fromCache cache (buildKey cityId units) now₀) = none := by
    simpa using hmiss
  have hr₁ := fetchWeather_netOk cityId units cache storage now₀ false p pOk₀ hmiss'
  refine ⟨by rw [hr₁], by rw [hr₁], ?_⟩
  dsimp only
  rw [hr₁]
  dsimp only
  have hhit : fromCache
      (cachePut cache (buildKey cityId units) ⟨now₀, some p⟩)
      (buildKey cityId units) now₁ = some p :=
    fromCache_cachePut_fresh cache (buildKey cityId units) now₀ now₁ p
      (by omega) hwin
  rw [fetchWeather_cacheHit _ _ _ _ _ _ _ _ hhit]

/-- Witness for C1 (third conjunct): starting from an empty cache at
now = 1000, the first fetch hits the network and the second at now = 2000
answers from the cache with the same payload and no network call. -/
theorem C1_fetch_cache_flow_witness :
    0 < 1000 ∧
    fromCache [] (buildKey "erbil" "c") 1000 = none ∧
    2000 - 1000 ≤ cacheTtlMs ∧
    ((fetchWeather "erbil" "c" [] none 1000 false
        (NetOutcome.ok samplePayload) true).netCalled = true ∧
     (fetchWeather "erbil" "c" [] none 1000 false
        (NetOutcome.ok samplePayload) true).result = .ok (samplePayload, .live) ∧
     (let r₁ := fetchWeather "erbil" "c" [] none 1000 false
        (NetOutcome.ok samplePayload) true
      fetchWeather "erbil" "c" r₁.cache r₁.storage 2000 false
          (NetOutcome.transportError "offline") true
        = ⟨.ok (samplePayload, .cache), r₁.cache, r₁.storage, false⟩)) :=
  ⟨by decide, by decide, by decide,
   C1_fetch_cache_flow.2.2 "erbil" "c" [] none 1000 2000 samplePayload true
     (NetOutcome.transportError "offline") true (by decide) (by decide) (by decide)⟩

/-- Claim C2 counterexample: the entry under "erbil_c" has `ts = 0`, so at
`now = 1000` it satisfies `now - ts = 1000 ≤ 600000`, yet `fromCache` treats
it as absent because of the `!entry.ts` truthiness check. -/
theorem C2_counterexample :
    cacheGet ts0Cache "erbil_c" = some ⟨0, some samplePayload⟩ ∧
    (1000 : Nat) - 0 ≤ cacheTtlMs ∧
    fromCache ts0Cache "erbil_c" 1000 = none :=
  ⟨by decide, by decide, by decide⟩

/-- Claim C2 (amended): a cache entry is treated as valid exactly when its
`ts` is nonzero (truthy), `now - ts ≤ 600000`, and its payload is present;
with no entry under the key the lookup also misses; and an entry older than
600000 ms is ignored by the next non-forced fetch, which performs a network
call and on success overwrites the entry under the same key with a fresh
timestamp. -/
theorem C2_ttl_validity :
    (∀ cache key now e, cacheGet cache key = some e →
      fromCache cache key now
        = if e.ts ≠ 0 ∧ now - e.ts ≤ cacheTtlMs then e.data else none) ∧
    (∀ cache key now, cacheGet cache key = none →
      fromCache cache key now = none) ∧
    (∀ cityId units cache storage now e p persistOk,
      cacheGet cache (buildKey cityId units) = some e →
      now - e.ts > cacheTtlMs →
      (fetchWeather cityId units cache storage now false
          (NetOutcome.ok p) persistOk).netCalled = true ∧
      cacheGet (fetchWeather cityId units cache storage now false
          (NetOutcome.ok p) persistOk).cache (buildKey cityId units)
        = some ⟨now, some p⟩) := by
  refine ⟨fromCache_of_cacheGet, ?_, ?_⟩
  · intro cache key now h
    unfold fromCache
    rw [h]
  · intro cityId units cache storage now e p persistOk hget hstale
    have hmiss : fromCache cache (buildKey cityId units) now = none := by
      rw [fromCache_of_cacheGet cache (buildKey cityId units) now e hget,
        if_neg]
      intro hco
      exact absurd hco.2 (by omega)
    have hmiss' : (if false then none
        else fromCache cache (buildKey cityId units) now) = none := by
      simpa using hmiss
    have hr := fetchWeather_netOk cityId units cache storage now false p
      persistOk hmiss'
    rw [hr]
    exact ⟨rfl, cacheGet_cachePut_self _ _ _⟩

/-- Witness for the amended C2: a 1 ms-old entry read at now = 700000 is
stale; the non-forced fetch hits the network and overwrites it with ts =
700000. -/
theorem C2_ttl_validity_witness :
    cacheGet staleCache (buildKey "erbil" "c") = some ⟨1, some samplePayload⟩ ∧
    (700000 : Nat) - 1 > cacheTtlMs ∧
    ((fetchWeather "erbil" "c" staleCache none 700000 false
        (NetOutcome.ok samplePayload) true).netCalled = true ∧
     cacheGet (fetchWeather "erbil" "c" staleCache none 700000 false
        (NetOutcome.ok samplePayload) true).cache (buildKey "erbil" "c")
       = some ⟨700000, some samplePayload⟩) :=
  ⟨by decide, by decide,
   C2_ttl_validity.2.2 "erbil" "c" staleCache none 700000 ⟨1, some samplePayload⟩
     samplePayload true (by decide) (by decide)⟩

end Kurdistan

namespace Kurdistan

/-- Claim C4: a failed network call (non-success HTTP status or transport
rejection) leaves the in-memory cache mapping and its persisted copy
completely unchanged — any pre-existing entry keeps its timestamp and
payload, and nothing new is written — and, whenever the network is actually
consulted, the fetch fails with an error message (for an HTTP failure, the
status-carrying message). -/
theorem C4_failure_leaves_cache :
    ∀ cityId units cache storage now force net persistOk,
      (∀ j, net ≠ NetOutcome.ok j) →
      (fetchWeather cityId units cache storage now force net persistOk).cache
          = cache ∧
      (fetchWeather cityId units cache storage now force net persistOk).storage
          = storage ∧
      ((force = true ∨ fromCache cache (buildKey cityId units) now = none) →
        (∃ msg, (fetchWeather cityId units cache storage now force net
            persistOk).result = .error msg) ∧
        (∀ status, net = NetOutcome.httpError status →
          (fetchWeather cityId units cache storage now force net
              persistOk).result
            = .error ("Weather request failed (" ++ toString status ++ ")"))) := by
  intro cityId units cache storage now force net persistOk hnotok
  have hmiss : ∀ _h : (force = true ∨
      fromCache cache (buildKey cityId units) now = none),
      (if force then none else fromCache cache (buildKey cityId units) now)
        = none := by
    intro h
    rcases h with hf | hn
    · simp [hf]
    · cases force <;> simp [hn]
  cases net with
  | ok j => exact absurd rfl (hnotok j)
  | httpError status =>
    cases hm : (if force then none
        else fromCache cache (buildKey cityId units) now) with
    | none =>
      rw [fetchWeather_httpErr _ _ _ _ _ _ _ _ hm]
      exact ⟨rfl, rfl, fun _ => ⟨⟨_, rfl⟩, fun s hs => by cases hs; rfl⟩⟩
    | some d =>
      cases force with
      | true => simp at hm
      | false =>
        have hm' : fromCache cache (buildKey cityId units) now = some d := by
          simpa using hm
        rw [fetchWeather_cacheHit _ _ _ _ _ _ _ _ hm']
        refine ⟨rfl, rfl, fun hreach => absurd (hmiss hreach) ?_⟩
        simp [hm']
  | transportError msg =>
    cases hm : (if force then none
        else fromCache cache (buildKey cityId units) now) with
    | none =>
      rw [fetchWeather_transportErr _ _ _ _ _ _ _ _ hm]
      exact ⟨rfl, rfl, fun _ => ⟨⟨msg, rfl⟩, fun s hs => by cases hs⟩⟩
    | some d =>
      cases force with
      | true => simp at hm
      | false =>
        have hm' : fromCache cache (buildKey cityId units) now = some d := by
          simpa using hm
        rw [fetchWeather_cacheHit _ _ _ _ _ _ _ _ hm']
        refine ⟨rfl, rfl, fun hreach => absurd (hmiss hreach) ?_⟩
        simp [hm']

/-- Witness for C4: a forced fetch against a populated cache that receives
HTTP status 500 keeps the cache and storage intact and reports the
status-carrying message. -/
theorem C4_failure_leaves_cache_witness :
    (fetchWeather "erbil" "c" staleCache (some staleCache) 1000 true
        (NetOutcome.httpError 500) true).cache = staleCache ∧
    (fetchWeather "erbil" "c" staleCache (some staleCache) 1000 true
        (NetOutcome.httpError 500) true).storage = some staleCache ∧
    (fetchWeather "erbil" "c" staleCache (some staleCache) 1000 true
        (NetOutcome.httpError 500) true).result
      = .error ("Weather request failed (" ++ toString 500 ++ ")") := by
  have h := C4_failure_leaves_cache "erbil" "c" staleCache (some staleCache)
    1000 true (NetOutcome.httpError 500) true
    (fun j hj => by cases hj)
  exact ⟨h.1, h.2.1, (h.2.2 (Or.inl rfl)).2 500 rfl⟩

/-- Claim C5: while `isLoading` is true, a further invocation of the render
flow returns immediately: no network call is made, no state field and no
persisted data changes, and nothing is re-rendered; hence no second fetch
for the widget instance can start while one is in flight. -/
theorem C5_loading_guard :
    ∀ st storage cityId units now force net persistOk,
      st.isLoading = true →
      renderWeatherFromCacheOrFetch st storage cityId units now force net
          persistOk
        = ⟨st, storage, false, false⟩ := by
  intro st storage cityId units now force net persistOk h
  unfold renderWeatherFromCacheOrFetch
  rw [h]
  rfl

/-- Witness for C5 at a loading state. -/
theorem C5_loading_guard_witness :
    (⟨[], true, none⟩ : WeatherState).isLoading = true ∧
    renderWeatherFromCacheOrFetch ⟨[], true, none⟩ none "erbil" "c" 1000 false
        (NetOutcome.ok samplePayload) true
      = ⟨⟨[], true, none⟩, none, false, false⟩ :=
  ⟨rfl, C5_loading_guard _ _ _ _ _ _ _ _ rfl⟩

/-- Claim C6: a successful network fetch writes the payload into the
in-memory cache under the key with the current timestamp, then persists the
full updated mapping best-effort: on persistence success the storage holds
exactly the updated mapping; on persistence failure the storage is left as
it was while the fetch still succeeds with source "live" and the in-memory
entry is still present. -/
theorem C6_persist_best_effort :
    ∀ cityId units cache storage now force p persistOk,
      (force = true ∨ fromCache cache (buildKey cityId units) now = none) →
      (fetchWeather cityId units cache storage now force
          (NetOutcome.ok p) persistOk).result = .ok (p, .live) ∧
      cacheGet (fetchWeather cityId units cache storage now force
          (NetOutcome.ok p) persistOk).cache (buildKey cityId units)
        = some ⟨now, some p⟩ ∧
      (persistOk = true →
        (fetchWeather cityId units cache storage now force
            (NetOutcome.ok p) persistOk).storage
          = some (fetchWeather cityId units cache storage now force
              (NetOutcome.ok p) persistOk).cache) ∧
      (persistOk = false →
        (fetchWeather cityId units cache storage now force
            (NetOutcome.ok p) persistOk).storage = storage) := by
  intro cityId units cache storage now force p persistOk hreach
  have hmiss : (if force then none
      else fromCache cache (buildKey cityId units) now) = none := by
    rcases hreach with hf | hn
    · simp [hf]
    · cases force <;> simp [hn]
  have hr := fetchWeather_netOk cityId units cache storage now force p
    persistOk hmiss
  rw [hr]
  refine ⟨rfl, cacheGet_cachePut_self _ _ _, ?_, ?_⟩
  · intro hp
    rw [hp]
    rfl
  · intro hp
    rw [hp]
    rfl

/-- Witness for C6 with a failing persistence write: the fetch still
succeeds, the in-memory entry is present, and storage keeps its old value. -/
theorem C6_persist_best_effort_witness :
    ((false : Bool) = true ∨ fromCache [] (buildKey "erbil" "c") 1000 = none) ∧
    ((fetchWeather "erbil" "c" [] (some staleCache) 1000 false
        (NetOutcome.ok samplePayload) false).result = .ok (samplePayload, .live) ∧
     cacheGet (fetchWeather "erbil" "c" [] (some staleCache) 1000 false
        (NetOutcome.ok samplePayload) false).cache (buildKey "erbil" "c")
       = some ⟨1000, some samplePayload⟩ ∧
     (fetchWeather "erbil" "c" [] (some staleCache) 1000 false
        (NetOutcome.ok samplePayload) false).storage = some staleCache) := by
  have h := C6_persist_best_effort "erbil" "c" [] (some staleCache) 1000 false
    samplePayload false (Or.inr (by decide))
  exact ⟨Or.inr (by decide), h.1, h.2.1, h.2.2.2 rfl⟩

end Kurdistan

namespace FruitShop

lemma bumpFirst_map_id (cart : List CartItem) (id : Int) :
    (bumpFirst cart id).map CartItem.id = cart.map CartItem.id := by
  induction cart with
  | nil => rfl
  | cons it rest ih =>
    unfold bumpFirst
    cases hb : it.id == id with
    | true => simp
    | false => simp [ih]

lemma foldl_qty_add_one (cart : List CartItem) (a : Nat) :
    cart.foldl (fun sum item => sum + item.qty) (a + 1)
      = cart.foldl (fun sum item => sum + item.qty) a + 1 := by
  induction cart generalizing a with
  | nil => rfl
  | cons it rest ih =>
    simp only [List.foldl_cons]
    rw [show a + 1 + it.qty = a + it.qty + 1 from by omega, ih]

lemma foldl_qty_bumpFirst (id : Int) :
    ∀ cart : List CartItem,
      (cart.find? (fun item => item.id == id)).isSome →
      ∀ a, (bumpFirst cart id).foldl (fun sum item => sum + item.qty) a
        = cart.foldl (fun sum item => sum + item.qty) a + 1 := by
  intro cart
  induction cart with
  | nil => intro h; simp [List.find?] at h
  | cons it rest ih =>
    intro h a
    unfold bumpFirst
    cases hb : it.id == id with
    | true =>
      simp only [if_pos, List.foldl_cons]
      rw [show a + (it.qty + 1) = a + it.qty + 1 from by omega]
      exact foldl_qty_add_one rest (a + it.qty)
    | false =>
      have h' : (rest.find? (fun item => item.id == id)).isSome := by
        rw [List.find?_cons, hb] at h
        exact h
      simp only [Bool.false_eq_true, if_neg, List.foldl_cons]
      exact ih h' (a + it.qty)

lemma cartCount_bumpFirst (cart : List CartItem) (id : Int)
    (h : (cart.find? (fun item => item.id == id)).isSome) :
    cartCount (bumpFirst cart id) = cartCount cart + 1 :=
  foldl_qty_bumpFirst id cart h 0

/-- Claim C10: every product id appears in the cart at most once — across any
sequence of clicks starting from the empty cart, and preserved by each
click — because the handler bumps the existing entry's quantity when an
entry with the clicked id is present, appends a fresh entry with quantity 1
only when none is present, and ignores clicks whose id matches no product. -/
theorem C10_cart_unique :
    (∀ clicks : List Int,
      ((clicks.foldl addToCart []).map CartItem.id).Nodup) ∧
    (∀ cart id, (cart.map CartItem.id).Nodup →
      ((addToCart cart id).map CartItem.id).Nodup) ∧
    (∀ cart id, products.find? (fun p => p.id == id) = none →
      addToCart cart id = cart) ∧
    (∀ cart id product, products.find? (fun p => p.id == id) = some product →
      (cart.find? (fun item => item.id == id)).isSome →
      (addToCart cart id).map CartItem.id = cart.map CartItem.id ∧
      cartCount (addToCart cart id) = cartCount cart + 1) ∧
    (∀ cart id product, products.find? (fun p => p.id == id) = some product →
      cart.find? (fun item => item.id == id) = none →
      addToCart cart id
        = cart ++ [⟨product.id, product.name, product.price, 1⟩]) := by
  have hunknown : ∀ cart id, products.find? (fun p => p.id == id) = none →
      addToCart cart id = cart := by
    intro cart id h
    unfold addToCart
    rw [h]
  have hpresent : ∀ cart id product,
      products.find? (fun p => p.id == id) = some product →
      (cart.find? (fun item => item.id == id)).isSome →
      (addToCart cart id).map CartItem.id = cart.map CartItem.id ∧
      cartCount (addToCart cart id) = cartCount cart + 1 := by
    intro cart id product hp hfound
    unfold addToCart
    rw [hp]
    cases hf : cart.find? (fun item => item.id == id) with
    | none => rw [hf] at hfound; simp at hfound
    | some it =>
      exact ⟨bumpFirst_map_id cart id,
        cartCount_bumpFirst cart id (by rw [hf]; rfl)⟩
  have habsent : ∀ cart id product,
      products.find? (fun p => p.id == id) = some product →
      cart.find? (fun item => item.id == id) = none →
      addToCart cart id
        = cart ++ [⟨product.id, product.name, product.price, 1⟩] := by
    intro cart id product hp hn
    unfold addToCart
    rw [hp, hn]
  have hpres : ∀ cart id, (cart.map CartItem.id).Nodup →
      ((addToCart cart id).map CartItem.id).Nodup := by
    intro cart id hnd
    unfold addToCart
    cases hp : products.find? (fun p => p.id == id) with
    | none => exact hnd
    | some product =>
      cases hf : cart.find? (fun item => item.id == id) with
      | some it => rw [bumpFirst_map_id]; exact hnd
      | none =>
        have hpid : product.id = id := by
          have := List.find?_some hp
          simpa using this
        have hnotmem : product.id ∉ cart.map CartItem.id := by
          intro hmem
          rw [List.mem_map] at hmem
          obtain ⟨item, hitem, hid⟩ := hmem
          have hne := List.find?_eq_none.mp hf item hitem
          simp only [beq_iff_eq] at hne
          exact hne (hid.trans hpid)
        rw [List.map_append]
        have hcons : (product.id :: cart.map CartItem.id).Nodup :=
          List.nodup_cons.mpr ⟨hnotmem, hnd⟩
        exact ((List.perm_append_singleton product.id
          (cart.map CartItem.id)).symm.symm.nodup_iff).mpr hcons
  refine ⟨?_, hpres, hunknown, hpresent, habsent⟩
  intro clicks
  have hgen : ∀ cart : List CartItem, (cart.map CartItem.id).Nodup →
      ((clicks.foldl addToCart cart).map CartItem.id).Nodup := by
    induction clicks with
    | nil => intro cart h; exact h
    | cons c rest ih =>
      intro cart h
      exact ih (addToCart cart c) (hpres cart c h)
  exact hgen [] (by simp)

/-- Witness for C10: clicking product 1 with one unit already in the cart
bumps its quantity from 2 to 3 and leaves the id list unchanged. -/
theorem C10_cart_unique_witness :
    products.find? (fun p => p.id == 1)
        = some ⟨1, "Honeycrisp Apples", 4.99⟩ ∧
    (([⟨1, "Honeycrisp Apples", 4.99, 2⟩] : List CartItem).find?
        (fun item => item.id == 1)).isSome ∧
    ((addToCart [⟨1, "Honeycrisp Apples", 4.99, 2⟩] 1).map CartItem.id
        = ([⟨1, "Honeycrisp Apples", 4.99, 2⟩] : List CartItem).map CartItem.id ∧
     cartCount (addToCart [⟨1, "Honeycrisp Apples", 4.99, 2⟩] 1)
        = cartCount [⟨1, "Honeycrisp Apples", 4.99, 2⟩] + 1) :=
  ⟨by rfl, by decide,
   C10_cart_unique.2.2.2.1 [⟨1, "Honeycrisp Apples", 4.99, 2⟩] 1
     ⟨1, "Honeycrisp Apples", 4.99⟩ (by rfl) (by decide)⟩

end FruitShop
